import Mathlib

/-!
# Legacy widget form bridge and native autocompleter overlay

A shallow embedding of

* `packages/block-library/src/legacy-widget/edit/form.js`
  (`Form`, `useForm`, `HiddenInputs`), and
* `packages/components/src/autocomplete/autocompleter-ui.native.js`
  (`getAutoCompleterUI` / `AutocompleterUI`),

followed by the properties established about them.

JavaScript values are embedded as `JsVal`.  State owned by React hooks is
threaded explicitly; the asynchronous `performFetch` is split at its single
`await` into the request it issues and the continuation that runs once the
request has settled.
-/

namespace Gutenberg

/-! ## JavaScript values -/

/-- The JavaScript values that reach the form bridge: `undefined`, `null`,
strings, non-negative integers and plain objects.  An object carries the
reference it is identified by and its string-valued own properties. -/
inductive JsVal where
  | undefined
  | null
  | str (s : String)
  | num (n : Nat)
  | obj (ref : Nat) (fields : List (String × String))
  deriving DecidableEq

/-- JavaScript truthiness, as tested by `if ( v )`, `v ? a : b` and `v && a`. -/
def truthy : JsVal → Bool
  | .undefined => false
  | .null => false
  | .str s => s != ""
  | .num n => n != 0
  | .obj _ _ => true

/-- A value is nullish when it is `undefined` or `null`. -/
def nullish : JsVal → Bool
  | .undefined => true
  | .null => true
  | _ => false

/-- The operator `a ?? b`. -/
def nullishCoalesce (a b : JsVal) : JsVal :=
  if nullish a then b else a

/-- String conversion as performed by a template literal placeholder. -/
def toStr : JsVal → String
  | .undefined => "undefined"
  | .null => "null"
  | .str s => s
  | .num n => toString n
  | .obj _ _ => "[object Object]"

/-- The comparison `Object.is( a, b )`: primitives by value, objects by
reference. -/
def objectIs : JsVal → JsVal → Bool
  | .undefined, .undefined => true
  | .null, .null => true
  | .str a, .str b => a == b
  | .num a, .num b => a == b
  | .obj r _, .obj r' _ => r == r'
  | _, _ => false

/-- Own-property lookup on the string-valued properties of an object. -/
def lookupField (name : String) : List (String × String) → JsVal
  | [] => .undefined
  | (k, v) :: rest => if k == name then .str v else lookupField name rest

/-- The expression `error?.message`. -/
def getMessage : JsVal → JsVal
  | .undefined => .undefined
  | .null => .undefined
  | .str _ => .undefined
  | .num _ => .undefined
  | .obj _ fields => lookupField "message" fields

/-! ## `useForm` -/

/-- The argument object of one `apiFetch` call. -/
structure Request where
  path : String
  method : String
  data : Option (List (String × JsVal))
  deriving DecidableEq

/-- One call of `createNotice( status, content )`. -/
structure Notice where
  status : String
  content : JsVal
  deriving DecidableEq

/-- The decoded object a request resolves to.  A property the server did not
send reads as `undefined`.  (`instanceVal` is the property `instance`.) -/
structure Payload where
  rendered_form : JsVal
  instanceVal : JsVal
  form : JsVal
  deriving DecidableEq

/-- How the promise returned by `apiFetch` settles. -/
inductive FetchOutcome where
  | resolved (payload : Payload)
  | rejected (error : JsVal)
  deriving DecidableEq

/-- Everything one mounted `useForm` reads or writes after a request has been
issued: the `isStillMounted` ref, the `html` state, the caller's `instance`
(written through `setInstance`), the notices sent to the notices store, the
requests passed to `apiFetch`, and a trace of the setter calls. -/
structure BridgeState where
  isStillMounted : Bool
  html : JsVal
  instanceVal : JsVal
  setHTMLCalls : Nat
  setInstanceCalls : List JsVal
  notices : List Notice
  requests : List Request
  deriving DecidableEq

/-- The state right after mount: `useState( null )` for `html`, the mount
effect has set `isStillMounted.current = true`. -/
def BridgeState.mounted (instanceVal : JsVal) : BridgeState :=
  { isStillMounted := true, html := .null, instanceVal := instanceVal,
    setHTMLCalls := 0, setInstanceCalls := [], notices := [], requests := [] }

/-- The cleanup of the mount effect: `isStillMounted.current = false`. -/
def BridgeState.unmount (s : BridgeState) : BridgeState :=
  { s with isStillMounted := false }

/-- The state setter `setHTML`, called with an updater function (a plain value
`v` is the constant updater). -/
def setHTML (update : JsVal → JsVal) (s : BridgeState) : BridgeState :=
  { s with html := update s.html, setHTMLCalls := s.setHTMLCalls + 1 }

/-- The caller-supplied `setInstance`. -/
def setInstance (v : JsVal) (s : BridgeState) : BridgeState :=
  { s with instanceVal := v, setInstanceCalls := s.setInstanceCalls ++ [v] }

/-- The action `createNotice` of the notices store. -/
def createNotice (status : String) (content : JsVal) (s : BridgeState) : BridgeState :=
  { s with notices := s.notices ++ [{ status := status, content := content }] }

/-- The text `__( 'An error occured while updating the widget.' )`, with the
identity translation. -/
def fallbackMessage : JsVal :=
  .str "An error occured while updating the widget."

/-- The expression `await apiFetch( ... )`: the payload, or the rejection
thrown into the enclosing `try`. -/
def awaitFetch : FetchOutcome → Except JsVal Payload
  | .resolved payload => .ok payload
  | .rejected error => .error error

/-- The statement `try { body } catch ( error ) { handler }`. -/
def tryCatch (body : Except JsVal BridgeState)
    (handler : JsVal → Except JsVal BridgeState) : Except JsVal BridgeState :=
  match body with
  | .ok s => .ok s
  | .error error => handler error

/-- An `async` function stopped at its `await`: either it has already
completed without issuing a request, or it has issued `request` and will
continue with `resume` once the request settles.  `resume` receives the
state as it is at that later moment. -/
inductive Suspended where
  | done
  | awaiting (request : Request)
      (resume : FetchOutcome → BridgeState → Except JsVal BridgeState)

/-- The closure `performFetch` of the second effect of `useForm`, for the
values of `id`, `idBase`, `instance` and `formData` captured by that effect. -/
def performFetch (id idBase instanceVal formData : JsVal) : Suspended :=
  if truthy id then
    -- Updating a widget that does not extend WP_Widget.
    .awaiting
      (if truthy formData then
        { path := "/wp/v2/widgets/" ++ toStr id ++ "?context=edit",
          method := "PUT",
          data := some [("form_data", formData)] }
      else
        { path := "/wp/v2/widgets/" ++ toStr id ++ "?context=edit",
          method := "GET",
          data := none })
      (fun outcome s =>
        tryCatch
          (do
            let widget ← awaitFetch outcome
            if s.isStillMounted then
              pure (setHTML (fun _ => widget.rendered_form) s)
            else
              pure s)
          (fun error =>
            pure (createNotice "error"
              (nullishCoalesce (getMessage error) fallbackMessage) s)))
  else if truthy idBase then
    -- Updating a widget that extends WP_Widget.
    .awaiting
      { path := "/wp/v2/widget-types/" ++ toStr idBase ++ "/encode",
        method := "POST",
        data := some [("instance", instanceVal), ("form_data", formData)] }
      (fun outcome s =>
        tryCatch
          (do
            let response ← awaitFetch outcome
            if s.isStillMounted then
              pure (setHTML (fun previousHTML => nullishCoalesce previousHTML response.form)
                (setInstance response.instanceVal s))
            else
              pure s)
          (fun error =>
            pure (createNotice "error"
              (nullishCoalesce (getMessage error) fallbackMessage) s)))
  else
    .done

/-- The request an invocation of `performFetch` passes to `apiFetch`, if any. -/
def Suspended.request? : Suspended → Option Request
  | .done => none
  | .awaiting request _ => some request

/-- The rest of an invocation of `performFetch` once its request has settled;
an invocation that issued no request has nothing left to do. -/
def Suspended.resume : Suspended → FetchOutcome → BridgeState → Except JsVal BridgeState
  | .done, _, s => .ok s
  | .awaiting _ k, outcome, s => k outcome s

/-- One complete run of `performFetch()`: the request (if any) is handed to
`apiFetch`, it settles as `outcome`, and the continuation runs on the state
`s` found at that moment. -/
def runPerformFetch (id idBase instanceVal formData : JsVal)
    (outcome : FetchOutcome) (s : BridgeState) : Except JsVal BridgeState :=
  match performFetch id idBase instanceVal formData with
  | .done => .ok s
  | .awaiting request k => k outcome { s with requests := s.requests ++ [request] }

/-! ## The dependency array of the fetch effect -/

/-- One entry of a hook dependency array: a value, or a function known only by
its identity. -/
inductive Dep where
  | val (v : JsVal)
  | fn (ref : Nat)
  deriving DecidableEq

/-- The comparison React applies to one pair of dependency entries
(`Object.is`). -/
def Dep.is : Dep → Dep → Bool
  | .val a, .val b => objectIs a b
  | .fn a, .fn b => a == b
  | _, _ => false

/-- Two dependency arrays are equal when they agree entry by entry. -/
def areHookInputsEqual : List Dep → List Dep → Bool
  | [], [] => true
  | a :: as, b :: bs => Dep.is a b && areHookInputsEqual as bs
  | _, _ => false

/-- What one render of `useForm` sees: its four arguments (`setInstance` by
identity) and the current `formData` state. -/
structure UseFormRender where
  id : JsVal
  idBase : JsVal
  instanceVal : JsVal
  setInstanceRef : Nat
  formData : JsVal
  deriving DecidableEq

/-- The dependency array `[ id, idBase, setInstance, formData ]` of the effect
that calls `performFetch()`. -/
def fetchEffectDeps (r : UseFormRender) : List Dep :=
  [.val r.id, .val r.idBase, .fn r.setInstanceRef, .val r.formData]

/-- Whether the fetch effect runs after render `next`, which follows render
`prev` of the same mounted instance. -/
def fetchEffectRuns (prev next : UseFormRender) : Bool :=
  !areHookInputsEqual (fetchEffectDeps prev) (fetchEffectDeps next)

/-- The requests issued after render `next`, which follows render `prev`. -/
def requestsAfterRender (prev next : UseFormRender) : List Request :=
  if fetchEffectRuns prev next then
    (performFetch next.id next.idBase next.instanceVal next.formData).request?.toList
  else
    []

/-- Two renders of the widget `text-2` that differ only in the identity of
the `setInstance` callback they pass. -/
def renderWithCallback (ref : Nat) : UseFormRender :=
  { id := .str "text-2", idBase := .undefined, instanceVal := .undefined,
    setInstanceRef := ref, formData := .null }

/-! ## `Form`: the legacy jQuery signal -/

/-- The `hasBeenAdded` ref of `Form` together with the event names passed to
`$( document ).trigger`, oldest first. -/
structure SignalState where
  hasBeenAdded : Bool
  triggered : List String
  deriving DecidableEq

/-- The body of the effect of `Form` that depends on `[ html ]`. -/
def htmlEffect (html : JsVal) (st : SignalState) : SignalState :=
  if truthy html then
    { hasBeenAdded := true,
      triggered := st.triggered ++
        [if st.hasBeenAdded then "widget-updated" else "widget-added"] }
  else
    st

/-- The renders of one mounted `Form`, given the value of `html` at each of
them: the effect runs after the first render and after every render whose
`html` is not `Object.is`-equal to that of the render before. -/
def runRenders : Option JsVal → SignalState → List JsVal → SignalState
  | _, st, [] => st
  | none, st, html :: rest => runRenders (some html) (htmlEffect html st) rest
  | some previous, st, html :: rest =>
      runRenders (some html)
        (if objectIs previous html then st else htmlEffect html st) rest

/-- The event names triggered during one mount whose successive renders see
the `html` values `htmls`. -/
def legacySignals (htmls : List JsVal) : List String :=
  (runRenders none { hasBeenAdded := false, triggered := [] } htmls).triggered

/-- The number of renders at which `html` is not `Object.is`-equal to its value
at the render before. -/
def htmlChanges : List JsVal → Nat
  | [] => 0
  | [_] => 0
  | a :: b :: rest => (if objectIs a b then 0 else 1) + htmlChanges (b :: rest)

/-- The number of renders after which the `[ html ]` effect runs with a truthy
`html`: the first render, or a render whose `html` differs from the previous
one, at which `html` is truthy. -/
def truthyRuns : Option JsVal → List JsVal → Nat
  | _, [] => 0
  | none, html :: rest => (if truthy html then 1 else 0) + truthyRuns (some html) rest
  | some previous, html :: rest =>
      (if !objectIs previous html && truthy html then 1 else 0) + truthyRuns (some html) rest

/-- The event names of `count` successive triggers, the first of which finds
the `hasBeenAdded` ref as given. -/
def signalNames (hasBeenAdded : Bool) : Nat → List String
  | 0 => []
  | count + 1 =>
      (if hasBeenAdded then "widget-updated" else "widget-added") ::
        List.replicate count "widget-updated"

/-! ## `HiddenInputs` -/

/-- One `<input type="hidden" …/>` element. -/
structure HiddenInput where
  inputType : String
  name : String
  className : String
  value : JsVal
  deriving DecidableEq

/-- The component `HiddenInputs`; `number` is the result of
`useInstanceId( HiddenInputs )`. -/
def HiddenInputs (id idBase : JsVal) (number : Nat) : List HiddenInput :=
  [ { inputType := "hidden", name := "widget-id", className := "widget-id",
      value := nullishCoalesce id (.str (toStr idBase ++ "-" ++ toStr (.num number))) },
    { inputType := "hidden", name := "id_base", className := "id_base",
      value := nullishCoalesce idBase id },
    { inputType := "hidden", name := "widget-width", className := "widget-width",
      value := .str "250" },
    { inputType := "hidden", name := "widget-height", className := "widget-height",
      value := .str "200" },
    { inputType := "hidden", name := "widget_number", className := "widget_number",
      value := if truthy idBase then .num number else .str "" },
    { inputType := "hidden", name := "add_new", className := "add_new",
      value := .str "" } ]

/-- The `value` of the hidden input called `name`, if there is one. -/
def hiddenValue (name : String) (inputs : List HiddenInput) : Option JsVal :=
  (inputs.find? (fun i => i.name == name)).map (fun i => i.value)

/-! ## `serializeForm` and the submit handler of `Form` -/

/-- The string a control submits for the `value` it was rendered with. -/
def controlValue : JsVal → String
  | .undefined => ""
  | .null => ""
  | .str s => s
  | .num n => toString n
  | .obj _ _ => "[object Object]"

/-- The function `serializeForm`.  Its argument stands for the form element
and is the entry list `Array.from( new window.FormData( form ) )`: the name
and value of every named control, in document order.  `encode` is the
percent-encoding applied by `URLSearchParams.prototype.toString`. -/
def serializeForm (encode : String → String) : List (String × String) → String
  | [] => ""
  | [(name, value)] => encode name ++ "=" ++ encode value
  | (name, value) :: rest =>
      encode name ++ "=" ++ encode value ++ "&" ++ serializeForm encode rest

/-- The entries of the `<form>` rendered by `Form`: the six hidden inputs,
followed by the named controls `rendered` found inside the raw HTML. -/
def formEntries (id idBase : JsVal) (number : Nat) (rendered : List (String × String)) :
    List (String × String) :=
  (HiddenInputs id idBase number).map (fun i => (i.name, controlValue i.value)) ++ rendered

/-- The `formData` state after the handler `onSubmit` of `Form` has run, given
the state before. -/
def onSubmit (encode : String → String) (id idBase : JsVal) (number : Nat)
    (rendered : List (String × String)) (formData : JsVal) : JsVal :=
  if truthy id then
    .str (serializeForm encode (formEntries id idBase number rendered))
  else
    formData

/-! ## `AutocompleterUI` (native) -/

/-- The icon of a suggestion. -/
structure Icon where
  src : JsVal
  deriving DecidableEq

/-- The `value` of a suggestion. -/
structure ItemValue where
  icon : Option Icon
  title : JsVal
  deriving DecidableEq

/-- One entry of the sequence returned by `useItems`. -/
structure Item where
  key : String
  value : Option ItemValue
  deriving DecidableEq

/-- A React Native style, flattened to the list of the style-sheet entries it
is composed of. -/
abbrev Style := List String

/-- The function `StyleSheet.compose`, on flattened styles. -/
def stylesCompose (style1 style2 : Style) : Style :=
  style1 ++ style2

/-- The expression `cond && style` used as a style: `false` adds nothing. -/
def styleWhen (cond : Bool) (style : Style) : Style :=
  if cond then style else []

/-- The hook `usePreferredColorSchemeStyle`. -/
def usePreferredColorSchemeStyle (isDark : Bool) (light dark : Style) : Style :=
  if isDark then stylesCompose light dark else light

/-- The comparison `index === selectedIndex` for an array index. -/
def indexStrictEquals (index : Nat) : JsVal → Bool
  | .num n => index == n
  | _ => false

/-- One rendered `<TouchableOpacity>`: its key, styles, icon and title, and the
arguments `onSelect` is called with when the row is pressed once. -/
structure Row where
  key : Nat
  itemStyle : Style
  textStyle : Style
  icon : JsVal
  title : JsVal
  onPress : List Item
  deriving DecidableEq

/-- The expression `option?.value?.icon?.src`. -/
def iconSrc (option : Item) : JsVal :=
  match option.value with
  | none => .undefined
  | some v =>
    match v.icon with
    | none => .undefined
    | some icon => icon.src

/-- The expression `option?.value?.title`. -/
def itemTitle (option : Item) : JsVal :=
  match option.value with
  | none => .undefined
  | some v => v.title

/-- The callback given to `items.map`. -/
def renderRow (isDark : Bool) (selectedIndex : JsVal) (option : Item) (index : Nat) : Row :=
  let activeItemStyles := usePreferredColorSchemeStyle isDark ["activeItem"] ["activeItemDark"]
  let textStyles := usePreferredColorSchemeStyle isDark ["text"] ["textDark"]
  let isActive := indexStrictEquals index selectedIndex
  { key := index,
    itemStyle := stylesCompose ["item"] (styleWhen isActive activeItemStyles),
    textStyle := stylesCompose textStyles (styleWhen isActive ["activeText"]),
    icon := iconSrc option,
    title := itemTitle option,
    onPress := [option] }

/-- The method `Array.prototype.map` with a callback taking element and index. -/
def mapWithIndex {α β : Type} (f : α → Nat → β) : Nat → List α → List β
  | _, [] => []
  | i, a :: rest => f a i :: mapWithIndex f (i + 1) rest

/-- The value of the boolean `b` when compared as a number. -/
def boolToNumber (b : Bool) : Nat :=
  if b then 1 else 0

/-- The component `AutocompleterUI` for the sequence `items` returned by
`useItems( filterValue )`: `none` is the `null` it returns from
`if ( ! items.length > 0 )`, otherwise the rows inside the scroll view. -/
def AutocompleterUI (isDark : Bool) (items : List Item) (selectedIndex : JsVal) :
    Option (List Row) :=
  if boolToNumber (!truthy (.num items.length)) > 0 then
    none
  else
    some (mapWithIndex (renderRow isDark selectedIndex) 0 items)

/-! ## Properties of `useForm` -/

/-- With a truthy `id`, `performFetch` awaits the widget-by-id request and
continues with the `try`/`catch` of the first branch. -/
theorem performFetch_of_id (id idBase instanceVal formData : JsVal)
    (hid : truthy id = true) (outcome : FetchOutcome) (s : BridgeState) :
    (performFetch id idBase instanceVal formData).resume outcome s =
      tryCatch
        (do
          let widget ← awaitFetch outcome
          if s.isStillMounted then
            pure (setHTML (fun _ => widget.rendered_form) s)
          else
            pure s)
        (fun error =>
          pure (createNotice "error"
            (nullishCoalesce (getMessage error) fallbackMessage) s)) := by
  simp [performFetch, hid, Suspended.resume]

/-- With a falsy `id` and a truthy `idBase`, `performFetch` awaits the encode
request and continues with the `try`/`catch` of the second branch. -/
theorem performFetch_of_idBase (id idBase instanceVal formData : JsVal)
    (hid : truthy id = false) (hbase : truthy idBase = true)
    (outcome : FetchOutcome) (s : BridgeState) :
    (performFetch id idBase instanceVal formData).resume outcome s =
      tryCatch
        (do
          let response ← awaitFetch outcome
          if s.isStillMounted then
            pure (setHTML (fun previousHTML => nullishCoalesce previousHTML response.form)
              (setInstance response.instanceVal s))
          else
            pure s)
        (fun error =>
          pure (createNotice "error"
            (nullishCoalesce (getMessage error) fallbackMessage) s)) := by
  simp [performFetch, hid, hbase, Suspended.resume]

/-- `Object.is` holds between a value and itself. -/
theorem objectIs_self (v : JsVal) : objectIs v v = true := by
  cases v <;> simp [objectIs]

/-- The operator `??` returns its left operand when that is not nullish. -/
theorem nullishCoalesce_of_not_nullish (a b : JsVal) (h : nullish a = false) :
    nullishCoalesce a b = a := by
  simp [nullishCoalesce, h]

/-- The operator `??` returns its right operand when the left one is nullish. -/
theorem nullishCoalesce_of_nullish (a b : JsVal) (h : nullish a = true) :
    nullishCoalesce a b = b := by
  simp [nullishCoalesce, h]

/-- C1. On the `idBase` path (falsy `id`, truthy `idBase`), while mounted, a
resolved encode response `r` is handled by calling `setInstance( r.instance )`
and by setting `html` to `r.form` if `html` was nullish and leaving it as it
was otherwise; no notice is emitted.  Hence once `html` is not nullish, a
further resolved response of the same mount leaves `html` as it is and still
passes its `instance` to `setInstance`. -/
theorem idBase_path_first_write_wins (id idBase instanceVal formData : JsVal)
    (s : BridgeState) (r : Payload)
    (hid : truthy id = false) (hbase : truthy idBase = true)
    (hm : s.isStillMounted = true) :
    ∃ s1, (performFetch id idBase instanceVal formData).resume (.resolved r) s = .ok s1
      ∧ s1.instanceVal = r.instanceVal
      ∧ s1.setInstanceCalls = s.setInstanceCalls ++ [r.instanceVal]
      ∧ (nullish s.html = true → s1.html = r.form)
      ∧ (nullish s.html = false → s1.html = s.html)
      ∧ s1.notices = s.notices
      ∧ ∀ (instanceVal2 formData2 : JsVal) (r2 : Payload), nullish s1.html = false →
          ∃ s2, (performFetch id idBase instanceVal2 formData2).resume (.resolved r2) s1 = .ok s2
            ∧ s2.html = s1.html
            ∧ s2.instanceVal = r2.instanceVal
            ∧ s2.setInstanceCalls = s1.setInstanceCalls ++ [r2.instanceVal] := by
  refine ⟨setHTML (fun previousHTML => nullishCoalesce previousHTML r.form)
    (setInstance r.instanceVal s), ?_, rfl, rfl, ?_, ?_, rfl, ?_⟩
  · rw [performFetch_of_idBase _ _ _ _ hid hbase]
    simp [awaitFetch, tryCatch, hm, bind, Except.bind, pure, Except.pure]
  · intro h
    simp [setHTML, setInstance, nullishCoalesce, h]
  · intro h
    simp [setHTML, setInstance, nullishCoalesce, h]
  · intro instanceVal2 formData2 r2 h
    refine ⟨setHTML (fun previousHTML => nullishCoalesce previousHTML r2.form)
      (setInstance r2.instanceVal (setHTML (fun previousHTML => nullishCoalesce previousHTML r.form)
        (setInstance r.instanceVal s))), ?_, ?_, rfl, rfl⟩
    · rw [performFetch_of_idBase _ _ _ _ hid hbase]
      simp [awaitFetch, tryCatch, hm, bind, Except.bind, pure, Except.pure, setHTML, setInstance]
    · exact nullishCoalesce_of_not_nullish _ _ h

/-- C1, at a concrete mount: `idBase = "search"`, first response with form
`<div>...</div>`, second response with form `<div>Y</div>`. -/
theorem idBase_path_first_write_wins_witness :
    ∃ s1, (performFetch .undefined (.str "search") (.obj 0 [("term", "")]) .null).resume
        (.resolved { rendered_form := .undefined, instanceVal := .obj 1 [("term", "x")],
                     form := .str "<div>...</div>" })
        (BridgeState.mounted (.obj 0 [("term", "")])) = .ok s1
      ∧ s1.instanceVal = .obj 1 [("term", "x")]
      ∧ s1.setInstanceCalls = [] ++ [.obj 1 [("term", "x")]]
      ∧ (nullish JsVal.null = true → s1.html = .str "<div>...</div>")
      ∧ (nullish JsVal.null = false → s1.html = .null)
      ∧ s1.notices = []
      ∧ ∀ (instanceVal2 formData2 : JsVal) (r2 : Payload), nullish s1.html = false →
          ∃ s2, (performFetch .undefined (.str "search") instanceVal2 formData2).resume
              (.resolved r2) s1 = .ok s2
            ∧ s2.html = s1.html
            ∧ s2.instanceVal = r2.instanceVal
            ∧ s2.setInstanceCalls = s1.setInstanceCalls ++ [r2.instanceVal] :=
  idBase_path_first_write_wins .undefined (.str "search") (.obj 0 [("term", "")]) .null
    (BridgeState.mounted (.obj 0 [("term", "")]))
    { rendered_form := .undefined, instanceVal := .obj 1 [("term", "x")],
      form := .str "<div>...</div>" }
    (by decide) (by decide) (by decide)

/-- C2. On the `id` path (truthy `id`), while mounted, a resolved response `w`
is handled by setting `html` to `w.rendered_form` whatever `html` was, without
calling `setInstance` and without a notice.  Hence of any two resolved
responses of the same mount, the one handled last determines `html`, whichever
request either of them answers. -/
theorem id_path_always_replaces (id idBase instanceVal formData : JsVal)
    (s : BridgeState) (w : Payload)
    (hid : truthy id = true) (hm : s.isStillMounted = true) :
    ∃ s1, (performFetch id idBase instanceVal formData).resume (.resolved w) s = .ok s1
      ∧ s1.html = w.rendered_form
      ∧ s1.instanceVal = s.instanceVal
      ∧ s1.setInstanceCalls = s.setInstanceCalls
      ∧ s1.notices = s.notices
      ∧ ∀ (instanceVal2 formData2 : JsVal) (w2 : Payload),
          ∃ s2, (performFetch id idBase instanceVal2 formData2).resume (.resolved w2) s1 = .ok s2
            ∧ s2.html = w2.rendered_form
            ∧ s2.setInstanceCalls = s.setInstanceCalls := by
  refine ⟨setHTML (fun _ => w.rendered_form) s, ?_, rfl, rfl, rfl, rfl, ?_⟩
  · rw [performFetch_of_id _ _ _ _ hid]
    simp [awaitFetch, tryCatch, hm, bind, Except.bind, pure, Except.pure]
  · intro instanceVal2 formData2 w2
    refine ⟨setHTML (fun _ => w2.rendered_form) (setHTML (fun _ => w.rendered_form) s),
      ?_, rfl, rfl⟩
    rw [performFetch_of_id _ _ _ _ hid]
    simp [awaitFetch, tryCatch, hm, bind, Except.bind, pure, Except.pure, setHTML]

/-- C2, at a concrete mount: widget `text-2`, `html` already `<p>old</p>`, a
response to the `GET` request carrying `<p>new</p>`. -/
theorem id_path_always_replaces_witness :
    ∃ s1, (performFetch (.str "text-2") .undefined .undefined .null).resume
        (.resolved { rendered_form := .str "<p>new</p>", instanceVal := .undefined,
                     form := .undefined })
        { BridgeState.mounted .undefined with html := .str "<p>old</p>" } = .ok s1
      ∧ s1.html = .str "<p>new</p>"
      ∧ s1.instanceVal = .undefined
      ∧ s1.setInstanceCalls = []
      ∧ s1.notices = []
      ∧ ∀ (instanceVal2 formData2 : JsVal) (w2 : Payload),
          ∃ s2, (performFetch (.str "text-2") .undefined instanceVal2 formData2).resume
              (.resolved w2) s1 = .ok s2
            ∧ s2.html = w2.rendered_form
            ∧ s2.setInstanceCalls = [] :=
  id_path_always_replaces (.str "text-2") .undefined .undefined .null
    { BridgeState.mounted .undefined with html := .str "<p>old</p>" }
    { rendered_form := .str "<p>new</p>", instanceVal := .undefined, form := .undefined }
    (by decide) (by decide)

/-- Reading `message` off an object gives the value of its first property of
that name, and `undefined` when it has none. -/
theorem lookupField_message (fields : List (String × String)) :
    lookupField "message" fields =
      (match fields.lookup "message" with
        | some m => .str m
        | none => .undefined) := by
  induction fields with
  | nil => rfl
  | cons entry rest ih =>
    obtain ⟨k, v⟩ := entry
    by_cases hk : k = "message"
    · subst hk
      simp [lookupField, List.lookup]
    · have h1 : (k == "message") = false := by simpa using hk
      have h2 : ("message" == k) = false := by
        simpa using fun h : "message" = k => hk h.symm
      simp only [lookupField, List.lookup, h1, h2, ih]
      rfl

/-- The content of the notice for the thrown value `e`, read off `e` itself. -/
theorem notice_content (e : JsVal) :
    nullishCoalesce (getMessage e) fallbackMessage =
      (match e with
        | .obj _ fields =>
          (match fields.lookup "message" with
            | some m => .str m
            | none => .str "An error occured while updating the widget.")
        | _ => .str "An error occured while updating the widget.") := by
  cases e with
  | obj ref fields =>
    simp only [getMessage, lookupField_message]
    cases fields.lookup "message" <;> simp [nullishCoalesce, nullish, fallbackMessage]
  | undefined => simp [getMessage, nullishCoalesce, nullish, fallbackMessage]
  | null => simp [getMessage, nullishCoalesce, nullish, fallbackMessage]
  | str t => simp [getMessage, nullishCoalesce, nullish, fallbackMessage]
  | num n => simp [getMessage, nullishCoalesce, nullish, fallbackMessage]

/-- C3. When the request of a run of `performFetch` is rejected with `e`, on
the `id` path as on the `idBase` path and mounted or not, the run completes
normally and has done exactly this: issued its one request and called
`createNotice( 'error', … )` once.  The text of the notice is the value of the
`message` property of `e` when `e` is an object that has one, and the fixed
text `An error occured while updating the widget.` when `e` is an object
without that property or is no object at all.  `html`, `instance` and the
setter traces are as before. -/
theorem failure_emits_one_error_notice (id idBase instanceVal formData e : JsVal)
    (s : BridgeState) (hreq : truthy id = true ∨ truthy idBase = true) :
    ∃ req, (performFetch id idBase instanceVal formData).request? = some req
      ∧ runPerformFetch id idBase instanceVal formData (.rejected e) s =
          .ok { s with
            requests := s.requests ++ [req],
            notices := s.notices ++
              [{ status := "error",
                 content :=
                   (match e with
                     | .obj _ fields =>
                       (match fields.lookup "message" with
                         | some m => .str m
                         | none => .str "An error occured while updating the widget.")
                     | _ => .str "An error occured while updating the widget.") }] } := by
  rw [← notice_content]
  by_cases hid : truthy id = true
  · by_cases hfd : truthy formData = true <;>
      simp [performFetch, runPerformFetch, Suspended.request?, hid, hfd, awaitFetch, tryCatch,
        bind, Except.bind, pure, Except.pure, createNotice]
  · have hbase : truthy idBase = true := by
      cases hreq with
      | inl h => exact absurd h hid
      | inr h => exact h
    simp [performFetch, runPerformFetch, Suspended.request?, hid, hbase, awaitFetch, tryCatch,
      bind, Except.bind, pure, Except.pure, createNotice]

/-- C3, at two concrete failures.  The encode request of widget type `search`
is rejected with an error object whose message is `Forbidden`: the one notice
reads `Forbidden`.  The `GET` request of widget `text-2` is rejected with
`undefined`: the one notice reads the fallback text. -/
theorem failure_emits_one_error_notice_witness :
    (∃ req, (performFetch .undefined (.str "search") .null .null).request? = some req
      ∧ runPerformFetch .undefined (.str "search") .null .null
          (.rejected (.obj 0 [("code", "rest_forbidden"), ("message", "Forbidden")]))
          (BridgeState.mounted .null) =
          .ok { BridgeState.mounted .null with
            requests := [req],
            notices := [{ status := "error", content := .str "Forbidden" }] })
    ∧ (∃ req, (performFetch (.str "text-2") .undefined .undefined .null).request? = some req
      ∧ runPerformFetch (.str "text-2") .undefined .undefined .null
          (.rejected .undefined)
          { BridgeState.mounted .undefined with html := .str "<p>old</p>" } =
          .ok { BridgeState.mounted .undefined with
            html := .str "<p>old</p>",
            requests := [req],
            notices := [{ status := "error",
                          content := .str "An error occured while updating the widget." }] }) :=
  ⟨failure_emits_one_error_notice .undefined (.str "search") .null .null
      (.obj 0 [("code", "rest_forbidden"), ("message", "Forbidden")])
      (BridgeState.mounted .null) (Or.inr (by decide)),
    failure_emits_one_error_notice (.str "text-2") .undefined .undefined .null .undefined
      { BridgeState.mounted .undefined with html := .str "<p>old</p>" } (Or.inl (by decide))⟩

/-- C4. When `isStillMounted.current` is `false` at the moment a request of
`performFetch` resolves, the rest of `performFetch` completes normally and
leaves the whole state as it found it: no `setHTML`, no `setInstance`, no
notice.  This holds on both paths and for every resolved payload. -/
theorem unmounted_result_discarded (id idBase instanceVal formData : JsVal)
    (s : BridgeState) (w : Payload) (hm : s.isStillMounted = false) :
    (performFetch id idBase instanceVal formData).resume (.resolved w) s = .ok s := by
  by_cases hid : truthy id = true
  · rw [performFetch_of_id _ _ _ _ hid]
    simp [awaitFetch, tryCatch, hm, bind, Except.bind, pure, Except.pure]
  · by_cases hbase : truthy idBase = true
    · rw [performFetch_of_idBase _ _ _ _ (by simpa using hid) hbase]
      simp [awaitFetch, tryCatch, hm, bind, Except.bind, pure, Except.pure]
    · simp [performFetch, hid, hbase, Suspended.resume]

/-- C4, at a concrete mount: the encode request of widget type `search`
resolves after the component has unmounted. -/
theorem unmounted_result_discarded_witness :
    (performFetch .undefined (.str "search") .null (.str "a=1")).resume
      (.resolved { rendered_form := .undefined, instanceVal := .obj 1 [("a", "1")],
                   form := .str "<p>form</p>" })
      (BridgeState.mounted .null).unmount = .ok (BridgeState.mounted .null).unmount :=
  unmounted_result_discarded .undefined (.str "search") .null (.str "a=1")
    (BridgeState.mounted .null).unmount
    { rendered_form := .undefined, instanceVal := .obj 1 [("a", "1")],
      form := .str "<p>form</p>" }
    (by decide)

/-- The serialization of a form with at least one named control is not the
empty string. -/
theorem serializeForm_cons_ne_empty (encode : String → String) (name value : String)
    (rest : List (String × String)) :
    serializeForm encode ((name, value) :: rest) ≠ "" := by
  intro h
  have hlen := congrArg String.length h
  have heq : "=".length = 1 := by decide
  cases rest <;> simp [serializeForm, String.length_append, heq] at hlen

/-- What `onSubmit` stores on the `id` path is truthy: the form always holds
the hidden inputs. -/
theorem onSubmit_truthy (encode : String → String) (id idBase : JsVal) (number : Nat)
    (rendered : List (String × String)) (formData : JsVal) (hid : truthy id = true) :
    onSubmit encode id idBase number rendered formData =
        .str (serializeForm encode (formEntries id idBase number rendered))
      ∧ truthy (onSubmit encode id idBase number rendered formData) = true := by
  have h1 : onSubmit encode id idBase number rendered formData =
      .str (serializeForm encode (formEntries id idBase number rendered)) := by
    simp [onSubmit, hid]
  refine ⟨h1, ?_⟩
  rw [h1]
  simp only [truthy, formEntries, HiddenInputs, List.map_cons, List.cons_append, bne_iff_ne]
  exact serializeForm_cons_ne_empty _ _ _ _

/-- C5. On the `id` path the request goes to
`/wp/v2/widgets/<id>?context=edit`; it is a `PUT` whose body is
`{ form_data: formData }` exactly when `formData` is truthy, and a `GET`
without body exactly when it is not.  In particular the initial `null` gives
the `GET`, every non-empty string gives the `PUT`, and so does everything the
submit handler stores in `formData`. -/
theorem id_path_method_selection (id idBase instanceVal formData : JsVal)
    (hid : truthy id = true) :
    ∃ req, (performFetch id idBase instanceVal formData).request? = some req
      ∧ req.path = "/wp/v2/widgets/" ++ toStr id ++ "?context=edit"
      ∧ (truthy formData = true →
          req.method = "PUT" ∧ req.data = some [("form_data", formData)])
      ∧ (truthy formData = false → req.method = "GET" ∧ req.data = none)
      ∧ (req.method = "PUT" ↔ truthy formData = true)
      ∧ (req.method = "GET" ↔ truthy formData = false)
      ∧ (formData = .null → req.method = "GET" ∧ req.data = none)
      ∧ (∀ t : String, t ≠ "" → formData = .str t →
          req.method = "PUT" ∧ req.data = some [("form_data", .str t)])
      ∧ (∀ (encode : String → String) (number : Nat) (rendered : List (String × String))
          (previous : JsVal),
          (performFetch id idBase instanceVal
              (onSubmit encode id idBase number rendered previous)).request? =
            some { path := "/wp/v2/widgets/" ++ toStr id ++ "?context=edit",
                   method := "PUT",
                   data := some [("form_data",
                     .str (serializeForm encode (formEntries id idBase number rendered)))] }) := by
  have hsubmit : ∀ (encode : String → String) (number : Nat)
      (rendered : List (String × String)) (previous : JsVal),
      (performFetch id idBase instanceVal
          (onSubmit encode id idBase number rendered previous)).request? =
        some { path := "/wp/v2/widgets/" ++ toStr id ++ "?context=edit",
               method := "PUT",
               data := some [("form_data",
                 .str (serializeForm encode (formEntries id idBase number rendered)))] } := by
    intro encode number rendered previous
    obtain ⟨h1, h2⟩ := onSubmit_truthy encode id idBase number rendered previous hid
    simp only [performFetch, hid, h2, if_true, Suspended.request?]
    rw [h1]
  by_cases hfd : truthy formData = true
  · refine ⟨_, by simp [performFetch, hid, hfd, Suspended.request?]; rfl, rfl,
      ?_, ?_, ?_, ?_, ?_, ?_, hsubmit⟩
    · intro _; exact ⟨rfl, rfl⟩
    · intro h; rw [hfd] at h; cases h
    · simp [hfd]
    · simp [hfd]
    · intro h; subst h; simp [truthy] at hfd
    · intro t _ h; subst h; exact ⟨rfl, rfl⟩
  · have hfd' : truthy formData = false := by simpa using hfd
    refine ⟨_, by simp [performFetch, hid, hfd', Suspended.request?]; rfl, rfl,
      ?_, ?_, ?_, ?_, ?_, ?_, hsubmit⟩
    · intro h; rw [hfd'] at h; cases h
    · intro _; exact ⟨rfl, rfl⟩
    · simp [hfd']
    · simp [hfd']
    · intro _; exact ⟨rfl, rfl⟩
    · intro t ht h; subst h; simp [truthy, ht] at hfd'

/-- C5, at a concrete state: widget `text-2` with the serialization
`title=Hello` pending. -/
theorem id_path_method_selection_witness :
    ∃ req, (performFetch (.str "text-2") .undefined .undefined (.str "title=Hello")).request?
        = some req
      ∧ req.path = "/wp/v2/widgets/" ++ toStr (.str "text-2") ++ "?context=edit"
      ∧ (truthy (.str "title=Hello") = true →
          req.method = "PUT" ∧ req.data = some [("form_data", .str "title=Hello")])
      ∧ (truthy (.str "title=Hello") = false → req.method = "GET" ∧ req.data = none)
      ∧ (req.method = "PUT" ↔ truthy (.str "title=Hello") = true)
      ∧ (req.method = "GET" ↔ truthy (.str "title=Hello") = false)
      ∧ (JsVal.str "title=Hello" = .null → req.method = "GET" ∧ req.data = none)
      ∧ (∀ t : String, t ≠ "" → JsVal.str "title=Hello" = .str t →
          req.method = "PUT" ∧ req.data = some [("form_data", .str t)])
      ∧ (∀ (encode : String → String) (number : Nat) (rendered : List (String × String))
          (previous : JsVal),
          (performFetch (.str "text-2") .undefined .undefined
              (onSubmit encode (.str "text-2") .undefined number rendered previous)).request? =
            some { path := "/wp/v2/widgets/" ++ toStr (.str "text-2") ++ "?context=edit",
                   method := "PUT",
                   data := some [("form_data",
                     .str (serializeForm encode
                       (formEntries (.str "text-2") .undefined number rendered)))] }) :=
  id_path_method_selection (.str "text-2") .undefined .undefined (.str "title=Hello")
    (by decide)

/-- C6. One run of `performFetch()` issues at most one request.  With a truthy
`id` it is the widget-by-id request, whose body has no `instance` entry, and
`setInstance` is not called, whatever `idBase` is.  With a falsy `id` and a
truthy `idBase` it is the `POST` to `/wp/v2/widget-types/<idBase>/encode` with
body `{ instance, form_data: formData }`.  With both falsy no request is
issued and the state is left as it was. -/
theorem request_dispatch (id idBase instanceVal formData : JsVal)
    (outcome : FetchOutcome) (s : BridgeState) :
    (truthy id = true →
      ∃ req s1, (performFetch id idBase instanceVal formData).request? = some req
        ∧ req.path = "/wp/v2/widgets/" ++ toStr id ++ "?context=edit"
        ∧ (∀ d, req.data = some d → ∀ entry ∈ d, entry.1 ≠ "instance")
        ∧ runPerformFetch id idBase instanceVal formData outcome s = .ok s1
        ∧ s1.requests = s.requests ++ [req]
        ∧ s1.instanceVal = s.instanceVal
        ∧ s1.setInstanceCalls = s.setInstanceCalls)
    ∧ (truthy id = false → truthy idBase = true →
      ∃ s1, (performFetch id idBase instanceVal formData).request? =
          some { path := "/wp/v2/widget-types/" ++ toStr idBase ++ "/encode",
                 method := "POST",
                 data := some [("instance", instanceVal), ("form_data", formData)] }
        ∧ runPerformFetch id idBase instanceVal formData outcome s = .ok s1
        ∧ s1.requests = s.requests ++
            [{ path := "/wp/v2/widget-types/" ++ toStr idBase ++ "/encode",
               method := "POST",
               data := some [("instance", instanceVal), ("form_data", formData)] }])
    ∧ (truthy id = false → truthy idBase = false →
      (performFetch id idBase instanceVal formData).request? = none
        ∧ runPerformFetch id idBase instanceVal formData outcome s = .ok s)
    ∧ ∃ s1, runPerformFetch id idBase instanceVal formData outcome s = .ok s1
        ∧ s1.requests.length ≤ s.requests.length + 1 := by
  refine ⟨?_, ?_, ?_, ?_⟩
  · intro hid
    by_cases hfd : truthy formData = true <;> cases outcome <;>
      by_cases hm : s.isStillMounted = true <;>
      simp [performFetch, runPerformFetch, Suspended.request?, hid, hfd, hm, awaitFetch,
        tryCatch, bind, Except.bind, pure, Except.pure, createNotice, setHTML]
  · intro hid hbase
    cases outcome <;> by_cases hm : s.isStillMounted = true <;>
      simp [performFetch, runPerformFetch, Suspended.request?, hid, hbase, hm, awaitFetch,
        tryCatch, bind, Except.bind, pure, Except.pure, createNotice, setHTML, setInstance]
  · intro hid hbase
    simp [performFetch, runPerformFetch, Suspended.request?, hid, hbase]
  · by_cases hid : truthy id = true
    · by_cases hfd : truthy formData = true <;> cases outcome <;>
        by_cases hm : s.isStillMounted = true <;>
        simp [performFetch, runPerformFetch, hid, hfd, hm, awaitFetch,
          tryCatch, bind, Except.bind, pure, Except.pure, createNotice, setHTML]
    · by_cases hbase : truthy idBase = true
      · cases outcome <;> by_cases hm : s.isStillMounted = true <;>
          simp [performFetch, runPerformFetch, hid, hbase, hm, awaitFetch,
            tryCatch, bind, Except.bind, pure, Except.pure, createNotice, setHTML, setInstance]
      · simp [performFetch, runPerformFetch, hid, hbase]

/-- C6, at a concrete state in which both `id` and `idBase` are set: the
request is the widget-by-id one and `instance` is neither sent nor set. -/
theorem request_dispatch_witness :
    ∃ req s1, (performFetch (.str "text-2") (.str "text") (.obj 0 [("title", "Hi")])
          .null).request? = some req
      ∧ req.path = "/wp/v2/widgets/" ++ toStr (.str "text-2") ++ "?context=edit"
      ∧ (∀ d, req.data = some d → ∀ entry ∈ d, entry.1 ≠ "instance")
      ∧ runPerformFetch (.str "text-2") (.str "text") (.obj 0 [("title", "Hi")]) .null
          (.resolved { rendered_form := .str "<p>form</p>", instanceVal := .undefined,
                       form := .undefined })
          (BridgeState.mounted (.obj 0 [("title", "Hi")])) = .ok s1
      ∧ s1.requests = (BridgeState.mounted (.obj 0 [("title", "Hi")])).requests ++ [req]
      ∧ s1.instanceVal = (BridgeState.mounted (.obj 0 [("title", "Hi")])).instanceVal
      ∧ s1.setInstanceCalls =
          (BridgeState.mounted (.obj 0 [("title", "Hi")])).setInstanceCalls :=
  (request_dispatch (.str "text-2") (.str "text") (.obj 0 [("title", "Hi")]) .null
    (.resolved { rendered_form := .str "<p>form</p>", instanceVal := .undefined,
                 form := .undefined })
    (BridgeState.mounted (.obj 0 [("title", "Hi")]))).1 (by decide)

/-! ## Properties of the fetch effect trigger -/

/-- C7, counterexample.  Between two consecutive renders with the same `id`,
`idBase` and `formData` but another `setInstance` function, the fetch effect
runs again and issues a request. -/
theorem fetch_effect_runs_on_new_setInstance :
    objectIs (renderWithCallback 0).id (renderWithCallback 1).id = true
      ∧ objectIs (renderWithCallback 0).idBase (renderWithCallback 1).idBase = true
      ∧ objectIs (renderWithCallback 0).formData (renderWithCallback 1).formData = true
      ∧ fetchEffectRuns (renderWithCallback 0) (renderWithCallback 1) = true
      ∧ requestsAfterRender (renderWithCallback 0) (renderWithCallback 1) =
          [{ path := "/wp/v2/widgets/text-2?context=edit", method := "GET", data := none }]
      ∧ ¬ (fetchEffectRuns (renderWithCallback 0) (renderWithCallback 1) = true ↔
            (objectIs (renderWithCallback 0).id (renderWithCallback 1).id = false
              ∨ objectIs (renderWithCallback 0).idBase (renderWithCallback 1).idBase = false
              ∨ objectIs (renderWithCallback 0).formData (renderWithCallback 1).formData
                  = false)) := by
  refine ⟨by decide, by decide, by decide, by decide, by decide, by decide⟩

/-- C7, amended.  Between two consecutive renders of one mounted instance the
fetch effect runs again if and only if `id`, `idBase`, the `setInstance`
function or `formData` differs (`Object.is`).  When it runs it issues exactly
one request if `id` or `idBase` is truthy; when it does not run it issues
none.  A render in which only `instance` changed issues no request, and
neither does one in which `formData` was set to a value equal to the current
one. -/
theorem fetch_effect_trigger (prev next : UseFormRender) :
    (fetchEffectRuns prev next = true ↔
        (objectIs prev.id next.id = false ∨ objectIs prev.idBase next.idBase = false
          ∨ prev.setInstanceRef ≠ next.setInstanceRef
          ∨ objectIs prev.formData next.formData = false))
    ∧ (fetchEffectRuns prev next = true → (truthy next.id = true ∨ truthy next.idBase = true) →
        (requestsAfterRender prev next).length = 1)
    ∧ (fetchEffectRuns prev next = false → requestsAfterRender prev next = [])
    ∧ (∀ v : JsVal, requestsAfterRender prev { prev with instanceVal := v } = [])
    ∧ (∀ v : JsVal, objectIs prev.formData v = true →
        requestsAfterRender prev { prev with formData := v } = []) := by
  refine ⟨?_, ?_, ?_, ?_, ?_⟩
  · simp only [fetchEffectRuns, fetchEffectDeps, areHookInputsEqual, Dep.is]
    cases objectIs prev.id next.id <;> cases objectIs prev.idBase next.idBase <;>
      cases objectIs prev.formData next.formData <;>
      by_cases h : prev.setInstanceRef = next.setInstanceRef <;> simp [h]
  · intro hrun hset
    simp only [requestsAfterRender, hrun, if_true]
    by_cases hid : truthy next.id = true
    · simp [performFetch, hid, Suspended.request?]
    · have hbase : truthy next.idBase = true := by
        cases hset with
        | inl h => exact absurd h hid
        | inr h => exact h
      simp [performFetch, hid, hbase, Suspended.request?]
  · intro hrun
    simp [requestsAfterRender, hrun]
  · intro v
    simp [requestsAfterRender, fetchEffectRuns, fetchEffectDeps, areHookInputsEqual, Dep.is,
      objectIs_self]
  · intro v hv
    simp [requestsAfterRender, fetchEffectRuns, fetchEffectDeps, areHookInputsEqual, Dep.is,
      objectIs_self, hv]

/-- C7, amended, at two concrete renders: the serialization `title=Hello` is
set on widget `text-2`, and one `PUT` request follows. -/
theorem fetch_effect_trigger_witness :
    (requestsAfterRender (renderWithCallback 0)
      { renderWithCallback 0 with formData := .str "title=Hello" }).length = 1 :=
  (fetch_effect_trigger (renderWithCallback 0)
    { renderWithCallback 0 with formData := .str "title=Hello" }).2.1 (by decide)
    (Or.inl (by decide))

/-! ## Properties of `HiddenInputs` -/

/-- C8, counterexample.  For a widget that has both a real `id` and an
`idBase`, the `widget_number` field carries the counter and is not empty. -/
theorem widget_number_set_despite_id :
    nullish (.str "text-2") = false
      ∧ hiddenValue "widget_number" (HiddenInputs (.str "text-2") (.str "text") 7)
          = some (.num 7)
      ∧ hiddenValue "widget_number" (HiddenInputs (.str "text-2") (.str "text") 7)
          ≠ some (.str "") := by
  refine ⟨by decide, by decide, by decide⟩

/-- C8, amended.  `HiddenInputs` renders exactly six hidden inputs, named
`widget-id`, `id_base`, `widget-width`, `widget-height`, `widget_number` and
`add_new` in this order.  `widget-id` is `id` when `id` is not nullish and
`<idBase>-<number>` otherwise; `id_base` is `idBase ?? id`; the width is
`250` and the height `200`; `widget_number` is the counter `number` when
`idBase` is truthy, whether or not there is an `id`, and the empty string
otherwise; `add_new` is empty. -/
theorem hidden_inputs_fields (id idBase : JsVal) (number : Nat) :
    (HiddenInputs id idBase number).map (fun i => i.name) =
        ["widget-id", "id_base", "widget-width", "widget-height", "widget_number", "add_new"]
    ∧ (∀ i ∈ HiddenInputs id idBase number, i.inputType = "hidden" ∧ i.className = i.name)
    ∧ hiddenValue "widget-id" (HiddenInputs id idBase number) =
        some (if nullish id then .str (toStr idBase ++ "-" ++ toString number) else id)
    ∧ hiddenValue "id_base" (HiddenInputs id idBase number) =
        some (if nullish idBase then id else idBase)
    ∧ hiddenValue "widget-width" (HiddenInputs id idBase number) = some (.str "250")
    ∧ hiddenValue "widget-height" (HiddenInputs id idBase number) = some (.str "200")
    ∧ hiddenValue "widget_number" (HiddenInputs id idBase number) =
        some (if truthy idBase then .num number else .str "")
    ∧ hiddenValue "add_new" (HiddenInputs id idBase number) = some (.str "") := by
  refine ⟨rfl, ?_, ?_, ?_, ?_, ?_, ?_, ?_⟩
  · intro i hi
    simp only [HiddenInputs, List.mem_cons, List.mem_singleton, List.not_mem_nil, or_false] at hi
    rcases hi with h | h | h | h | h | h <;> subst h <;> exact ⟨rfl, rfl⟩
  · simp [hiddenValue, HiddenInputs, List.find?, nullishCoalesce, toStr]
  · have h1 : ("widget-id" == "id_base") = false := by decide
    simp [hiddenValue, HiddenInputs, List.find?, nullishCoalesce, h1]
  · have h1 : ("widget-id" == "widget-width") = false := by decide
    have h2 : ("id_base" == "widget-width") = false := by decide
    simp [hiddenValue, HiddenInputs, List.find?, h1, h2]
  · have h1 : ("widget-id" == "widget-height") = false := by decide
    have h2 : ("id_base" == "widget-height") = false := by decide
    have h3 : ("widget-width" == "widget-height") = false := by decide
    simp [hiddenValue, HiddenInputs, List.find?, h1, h2, h3]
  · have h1 : ("widget-id" == "widget_number") = false := by decide
    have h2 : ("id_base" == "widget_number") = false := by decide
    have h3 : ("widget-width" == "widget_number") = false := by decide
    have h4 : ("widget-height" == "widget_number") = false := by decide
    simp [hiddenValue, HiddenInputs, List.find?, h1, h2, h3, h4]
  · have h1 : ("widget-id" == "add_new") = false := by decide
    have h2 : ("id_base" == "add_new") = false := by decide
    have h3 : ("widget-width" == "add_new") = false := by decide
    have h4 : ("widget-height" == "add_new") = false := by decide
    have h5 : ("widget_number" == "add_new") = false := by decide
    simp [hiddenValue, HiddenInputs, List.find?, h1, h2, h3, h4, h5]

/-! ## Properties of the legacy signal of `Form` -/

/-- Once `hasBeenAdded` is set, every trigger is `widget-updated`. -/
theorem signalNames_true (count : Nat) :
    signalNames true count = List.replicate count "widget-updated" := by
  cases count <;> simp [signalNames, List.replicate_succ]

/-- Triggering once and then `count` more times. -/
theorem signalNames_succ (hasBeenAdded : Bool) (count : Nat) :
    [if hasBeenAdded then "widget-updated" else "widget-added"] ++ signalNames true count
      = signalNames hasBeenAdded (1 + count) := by
  rw [signalNames_true, Nat.add_comm]
  simp [signalNames]

/-- The renders of a mount extend the list of triggered events by one event
for each run of the effect that finds a truthy `html`. -/
theorem runRenders_triggered (htmls : List JsVal) :
    ∀ (previous : Option JsVal) (st : SignalState),
      (runRenders previous st htmls).triggered =
        st.triggered ++ signalNames st.hasBeenAdded (truthyRuns previous htmls) := by
  induction htmls with
  | nil => intro previous st; cases previous <;> simp [runRenders, truthyRuns, signalNames]
  | cons html rest ih =>
    intro previous st
    cases previous with
    | none =>
      simp only [runRenders, truthyRuns]
      rw [ih]
      by_cases ht : truthy html = true
      · simp only [htmlEffect, ht, if_true, List.append_assoc]
        rw [signalNames_succ]
      · simp [htmlEffect, ht]
    | some p =>
      simp only [runRenders, truthyRuns]
      rw [ih]
      by_cases hp : objectIs p html = true
      · simp [hp]
      · by_cases ht : truthy html = true
        · have hp' : objectIs p html = false := by simpa using hp
          simp only [hp', htmlEffect, ht, if_true, List.append_assoc, Bool.not_false,
            Bool.and_self, Bool.false_eq_true, if_false]
          rw [signalNames_succ]
        · simp [htmlEffect, ht, hp]

/-- C9, counterexample.  `html` goes from `null` to a form and from there to
the empty string: it changes twice, and one signal is triggered. -/
theorem no_signal_on_change_to_empty_html :
    htmlChanges [.null, .str "<p>form</p>", .str ""] = 2
      ∧ legacySignals [.null, .str "<p>form</p>", .str ""] = ["widget-added"]
      ∧ (legacySignals [.null, .str "<p>form</p>", .str ""]).length
          ≠ htmlChanges [.null, .str "<p>form</p>", .str ""] := by
  refine ⟨by decide, by decide, by decide⟩

/-- C9, amended.  During one mount a signal is triggered after the first
render and after each render at which `html` has changed, provided `html` is
truthy there; nothing is triggered for a falsy `html`.  The first signal
triggered is `widget-added` and every later one is `widget-updated`, so
`widget-added` is triggered at most once and nothing precedes it. -/
theorem legacy_signal_sequence (htmls : List JsVal) :
    legacySignals htmls =
        (match truthyRuns none htmls with
          | 0 => []
          | count + 1 => "widget-added" :: List.replicate count "widget-updated")
    ∧ (legacySignals htmls).length = truthyRuns none htmls
    ∧ (legacySignals htmls).count "widget-added" ≤ 1
    ∧ (∀ before after : List String,
        legacySignals htmls = before ++ "widget-added" :: after → before = []) := by
  have hmain : legacySignals htmls = signalNames false (truthyRuns none htmls) := by
    simp [legacySignals, runRenders_triggered]
  have hupd : ("widget-updated" == "widget-added") = false := by decide
  rw [hmain]
  cases truthyRuns none htmls with
  | zero => simp [signalNames]
  | succ count =>
    refine ⟨by simp [signalNames], by simp [signalNames], ?_, ?_⟩
    · simp [signalNames, List.count_cons, List.count_replicate, hupd]
    · intro before after h
      cases before with
      | nil => rfl
      | cons b rest =>
        exfalso
        simp only [signalNames, Bool.false_eq_true, if_false, List.cons_append,
          List.cons.injEq] at h
        have hmem : "widget-added" ∈ List.replicate count "widget-updated" := by
          rw [h.2]; simp
        have := List.eq_of_mem_replicate hmem
        exact absurd this (by decide)

/-! ## Properties of `AutocompleterUI` -/

/-- The guard `! items.length > 0` holds exactly for length zero. -/
theorem length_guard (n : Nat) : boolToNumber (!truthy (.num n)) > 0 ↔ n = 0 := by
  cases n <;> simp [boolToNumber, truthy]

/-- Mapping with index keeps the length. -/
theorem mapWithIndex_length {α β : Type} (f : α → Nat → β) (l : List α) :
    ∀ i, (mapWithIndex f i l).length = l.length := by
  induction l with
  | nil => intro i; rfl
  | cons a rest ih => intro i; simp [mapWithIndex, ih]

/-- Entry `k` of a mapping with index that starts counting at `i` is the
callback applied to entry `k` and the index `i + k`. -/
theorem mapWithIndex_getElem? {α β : Type} (f : α → Nat → β) (l : List α) :
    ∀ i k, (mapWithIndex f i l)[k]? = (l[k]?).map (fun a => f a (i + k)) := by
  induction l with
  | nil => intro i k; simp [mapWithIndex]
  | cons a rest ih =>
    intro i k
    cases k with
    | zero => simp [mapWithIndex]
    | succ k =>
      simp only [mapWithIndex, List.getElem?_cons_succ, ih]
      have : i + 1 + k = i + (k + 1) := by omega
      rw [this]

/-- The comparison `index === selectedIndex` holds exactly when
`selectedIndex` is the number `index`. -/
theorem indexStrictEquals_iff (index : Nat) (selectedIndex : JsVal) :
    indexStrictEquals index selectedIndex = true ↔ selectedIndex = .num index := by
  cases selectedIndex with
  | num n =>
    simp only [indexStrictEquals, beq_iff_eq, JsVal.num.injEq]
    exact eq_comm
  | undefined => simp [indexStrictEquals]
  | null => simp [indexStrictEquals]
  | str s => simp [indexStrictEquals]
  | obj ref fields => simp [indexStrictEquals]

/-- A row carries the active item style, and the active text style, exactly
when its index is `selectedIndex`. -/
theorem renderRow_active (isDark : Bool) (selectedIndex : JsVal) (option : Item) (index : Nat) :
    ("activeItem" ∈ (renderRow isDark selectedIndex option index).itemStyle
        ↔ selectedIndex = .num index)
    ∧ ("activeText" ∈ (renderRow isDark selectedIndex option index).textStyle
        ↔ selectedIndex = .num index) := by
  rw [← indexStrictEquals_iff]
  cases h : indexStrictEquals index selectedIndex <;> cases isDark <;>
    simp [renderRow, stylesCompose, styleWhen, usePreferredColorSchemeStyle, h]

/-- C10. `AutocompleterUI` returns `null` exactly when `items` is empty.  For
`N > 0` items it renders `N` rows in the order of `items`; row `k` shows the
icon and title of `items[k]`, carries the active style exactly when
`selectedIndex` is the number `k`, and pressing it calls `onSelect` once, with
the entry `items[k]` itself.  No row is active for a `selectedIndex` that is
not the index of an item. -/
theorem autocompleter_rendering (isDark : Bool) (items : List Item) (selectedIndex : JsVal) :
    (AutocompleterUI isDark items selectedIndex = none ↔ items = [])
    ∧ (items ≠ [] →
        ∃ rows, AutocompleterUI isDark items selectedIndex = some rows
          ∧ rows.length = items.length
          ∧ ∀ (k : Nat) (item : Item), items[k]? = some item →
              ∃ row, rows[k]? = some row
                ∧ row.key = k
                ∧ row.icon = iconSrc item
                ∧ row.title = itemTitle item
                ∧ ("activeItem" ∈ row.itemStyle ↔ selectedIndex = .num k)
                ∧ row.onPress = [item])
    ∧ (∀ rows row, AutocompleterUI isDark items selectedIndex = some rows → row ∈ rows →
        "activeItem" ∈ row.itemStyle →
          ∃ k, k < items.length ∧ selectedIndex = .num k) := by
  have hrows : items ≠ [] → AutocompleterUI isDark items selectedIndex =
      some (mapWithIndex (renderRow isDark selectedIndex) 0 items) := by
    intro hne
    have : ¬ (boolToNumber (!truthy (.num items.length)) > 0) := by
      rw [length_guard]
      simpa using hne
    simp only [AutocompleterUI, this, if_false]
  have hrow : ∀ (k : Nat) (item : Item), items[k]? = some item →
      (mapWithIndex (renderRow isDark selectedIndex) 0 items)[k]? =
        some (renderRow isDark selectedIndex item k) := by
    intro k item hk
    simp [mapWithIndex_getElem?, hk]
  refine ⟨?_, ?_, ?_⟩
  · constructor
    · intro h
      by_contra hne
      rw [hrows hne] at h
      cases h
    · intro h
      subst h
      simp [AutocompleterUI, boolToNumber, truthy]
  · intro hne
    refine ⟨_, hrows hne, mapWithIndex_length _ _ _, ?_⟩
    intro k item hk
    exact ⟨_, hrow k item hk, rfl, rfl, rfl,
      (renderRow_active isDark selectedIndex item k).1, rfl⟩
  · intro rows row hrender hmem hactive
    by_cases hne : items = []
    · subst hne
      simp [AutocompleterUI, boolToNumber, truthy] at hrender
    · rw [hrows hne] at hrender
      cases hrender
      obtain ⟨k, hk, hget⟩ := List.getElem_of_mem hmem
      rw [mapWithIndex_length] at hk
      have hitem : items[k]? = some items[k] := List.getElem?_eq_getElem hk
      have h2 := hrow k items[k] hitem
      rw [List.getElem?_eq_getElem (by rw [mapWithIndex_length]; exact hk)] at h2
      have hrowEq : row = renderRow isDark selectedIndex items[k] k := by
        rw [← hget]; exact Option.some.inj h2
      subst hrowEq
      exact ⟨k, hk, (renderRow_active isDark selectedIndex items[k] k).1.mp hactive⟩

/-- C10, at a concrete list of two suggestions with the second one selected. -/
theorem autocompleter_rendering_witness :
    ∃ rows, AutocompleterUI false
        [ { key := "block-core/paragraph",
            value := some { icon := some { src := .str "paragraph" }, title := .str "Paragraph" } },
          { key := "block-core/image",
            value := some { icon := some { src := .str "image" }, title := .str "Image" } } ]
        (.num 1) = some rows
      ∧ rows.length = 2
      ∧ ∀ (k : Nat) (item : Item),
          [ ({ key := "block-core/paragraph",
               value := some { icon := some { src := .str "paragraph" },
                               title := .str "Paragraph" } } : Item),
            { key := "block-core/image",
              value := some { icon := some { src := .str "image" }, title := .str "Image" } }
          ][k]? = some item →
          ∃ row, rows[k]? = some row
            ∧ row.key = k
            ∧ row.icon = iconSrc item
            ∧ row.title = itemTitle item
            ∧ ("activeItem" ∈ row.itemStyle ↔ JsVal.num 1 = .num k)
            ∧ row.onPress = [item] :=
  (autocompleter_rendering false
    [ { key := "block-core/paragraph",
        value := some { icon := some { src := .str "paragraph" }, title := .str "Paragraph" } },
      { key := "block-core/image",
        value := some { icon := some { src := .str "image" }, title := .str "Image" } } ]
    (.num 1)).2.1 (by simp)

end Gutenberg
